import Mathlib

set_option maxHeartbeats 1000000

/-!
Verification of the blades federated-learning core: the AutoGM robust
aggregator (`src/blades/aggregators/autogm.py`) and the per-client
update/gradient lifecycle (`src/blades/client.py`, `src/simulators/actor.py`).

Update vectors handled by the aggregator are modelled at dimension one,
where the Euclidean norm `(v1 - v2).norm()` is the absolute value and all
arithmetic is exact over `ℚ`.  Client-side parameter tensors are modelled
as flattened `List ℚ` per parameter.  Fallible operations (Python code
that can raise) return `Option`, with `none` standing for an exception.
-/

/-- Stable insertion of `x` into a list: `x` goes before the first element
`y` with `le x y`.  Building block for `isortBy`. -/
def insertLe {α : Type} (le : α → α → Bool) (x : α) : List α → List α
  | [] => [x]
  | y :: ys => if le x y then x :: y :: ys else y :: insertLe le x ys

/-- Stable insertion sort, modelling Python's `sorted` (a stable ascending
sort by the comparison `le`). -/
def isortBy {α : Type} (le : α → α → Bool) : List α → List α
  | [] => []
  | x :: xs => insertLe le x (isortBy le xs)

/-- A float value as stored in an update tensor: either a finite value
(modelled exactly as a rational) or one of the three non-finite values. -/
inductive FVal : Type where
  | fin (q : ℚ)
  | nan
  | pinf
  | ninf
deriving DecidableEq, Repr

/-- Largest finite value of torch's default float32 dtype,
`(2 - 2^-23) * 2^127`; `torch.nan_to_num` substitutes it for `+Inf` when
`posinf` is left at its default `None`. -/
def floatMax : ℚ := (2 - 1 / 2 ^ 23) * 2 ^ 127

/-- `torch.nan_to_num` with default arguments: `NaN` becomes `0.0`,
`+Inf` becomes the greatest finite representable value, `-Inf` the least
finite representable value; finite entries are unchanged. -/
def nanToNum : FVal → FVal
  | .nan => .fin 0
  | .pinf => .fin floatMax
  | .ninf => .fin (-floatMax)
  | .fin q => .fin q

/-- One optimizer parameter as seen by the client code: its live gradient
tensor `p.grad` (`none` models Python `None`, e.g. a frozen parameter),
and the two per-parameter slots of `self.state[p]` used by the
gradient lifecycle: `"saved_grad"` and `"momentum_buffer"` (`none` models
an absent dictionary key). -/
structure Param : Type where
  grad : Option (List ℚ)
  saved_grad : Option (List ℚ)
  momentum_buffer : Option (List ℚ)
deriving DecidableEq, Repr

namespace ClientImpl

/-- `TorchClient._save_grad` (client.py lines 175-181): for every optimizer
parameter, skip it if `p.grad is None`, otherwise store a detached clone of
`p.grad` into `state[p]["saved_grad"]`. -/
def save_grad (ps : List Param) : List Param :=
  ps.map fun p =>
    match p.grad with
    | none => p
    | some g => { p with saved_grad := some g }

/-- `ClientWithMomentum._save_grad` (client.py lines 230-240): skip
parameters with `p.grad is None`; on the first save clone `p.grad` into
`momentum_buffer`; afterwards run the in-place update
`momentum_buffer.mul_(m).add_(p.grad.mul_(1 - m))`, which also mutates
the live `p.grad` tensor to `p.grad * (1 - m)`. -/
def momentum_save_grad (m : ℚ) (ps : List Param) : List Param :=
  ps.map fun p =>
    match p.grad, p.momentum_buffer with
    | none, _ => p
    | some g, none => { p with momentum_buffer := some g }
    | some g, some b =>
        { p with
          momentum_buffer := some (List.zipWith (fun bi gi => bi * m + gi * (1 - m)) b g)
          grad := some (g.map fun gi => gi * (1 - m)) }

/-- `TorchClient._get_saved_grad` (client.py lines 211-217): for every
optimizer parameter read `state[p]["saved_grad"]` (a missing key raises
`KeyError`, modelled as `none`) and concatenate the flattened views. -/
def get_saved_grad (ps : List Param) : Option (List ℚ) :=
  ps.foldr
    (fun p acc =>
      match p.saved_grad, acc with
      | some g, some gs => some (g ++ gs)
      | _, _ => none)
    (some [])

/-- `TorchClient.get_gradient` (client.py lines 158-159). -/
def get_gradient (ps : List Param) : Option (List ℚ) :=
  get_saved_grad ps

/-- `ClientWithMomentum._get_saved_grad` (client.py lines 242-248): like the
plain variant but reading `state[p]["momentum_buffer"]`. -/
def momentum_get_saved_grad (ps : List Param) : Option (List ℚ) :=
  ps.foldr
    (fun p acc =>
      match p.momentum_buffer, acc with
      | some g, some gs => some (g ++ gs)
      | _, _ => none)
    (some [])

/-- `TorchClient.set_gradient` (client.py lines 167-173): walk the model
parameters in order, slice `gradient[beg:end]` with `end - beg =
len(p.grad.view(-1))` and write it into `p.grad.data`.  `p.grad is None`
raises `AttributeError` (modelled `none`); a slice shorter than the
parameter makes `reshape_as` raise (modelled `none`). -/
def set_gradient (gradient : List ℚ) : List Param → Option (List Param)
  | [] => some []
  | p :: rest =>
    match p.grad with
    | none => none
    | some pg =>
      if gradient.length < pg.length then none
      else
        match set_gradient (gradient.drop pg.length) rest with
        | none => none
        | some rest' => some ({ p with grad := some (gradient.take pg.length) } :: rest')

/-- `TorchClient.get_update` (client.py lines 161-162):
`torch.nan_to_num(self._get_saved_update())` applied entrywise to the
stored update vector. -/
def get_update (saved_update : List FVal) : List FVal :=
  saved_update.map nanToNum

end ClientImpl

namespace ActorImpl

/-- `TorchClient._save_grad` (actor.py lines 152-158). -/
def save_grad (ps : List Param) : List Param :=
  ps.map fun p =>
    match p.grad with
    | none => p
    | some g => { p with saved_grad := some g }

/-- `WorkerWithMomentum._save_grad` (actor.py lines 214-224). -/
def momentum_save_grad (m : ℚ) (ps : List Param) : List Param :=
  ps.map fun p =>
    match p.grad, p.momentum_buffer with
    | none, _ => p
    | some g, none => { p with momentum_buffer := some g }
    | some g, some b =>
        { p with
          momentum_buffer := some (List.zipWith (fun bi gi => bi * m + gi * (1 - m)) b g)
          grad := some (g.map fun gi => gi * (1 - m)) }

/-- `TorchClient._get_saved_grad` (actor.py lines 188-194). -/
def get_saved_grad (ps : List Param) : Option (List ℚ) :=
  ps.foldr
    (fun p acc =>
      match p.saved_grad, acc with
      | some g, some gs => some (g ++ gs)
      | _, _ => none)
    (some [])

/-- `TorchClient.get_gradient` (actor.py lines 127-128). -/
def get_gradient (ps : List Param) : Option (List ℚ) :=
  get_saved_grad ps

/-- `WorkerWithMomentum._get_saved_grad` (actor.py lines 226-232). -/
def momentum_get_saved_grad (ps : List Param) : Option (List ℚ) :=
  ps.foldr
    (fun p acc =>
      match p.momentum_buffer, acc with
      | some g, some gs => some (g ++ gs)
      | _, _ => none)
    (some [])

/-- `TorchClient.set_gradient` (actor.py lines 136-142). -/
def set_gradient (gradient : List ℚ) : List Param → Option (List Param)
  | [] => some []
  | p :: rest =>
    match p.grad with
    | none => none
    | some pg =>
      if gradient.length < pg.length then none
      else
        match set_gradient (gradient.drop pg.length) rest with
        | none => none
        | some rest' => some ({ p with grad := some (gradient.take pg.length) } :: rest')

/-- `TorchClient.get_update` (actor.py lines 130-131). -/
def get_update (saved_update : List FVal) : List FVal :=
  saved_update.map nanToNum

end ActorImpl

namespace Autogm

/-- `_compute_euclidean_distance(v1, v2) = (v1 - v2).norm()` at dimension
one: the absolute value of the difference. -/
def euclDist (v1 v2 : ℚ) : ℚ := |v1 - v2|

/-- Modelled from the spec: the source file
`blades/aggregators/geomed.py` (class `Geomed`, imported by autogm.py) is
not under `src/`.  Spec §4.1 GeometricMedianSolver: iterative reweighting,
"each iteration re-weights by inverse current distance and recomputes a
weighted average" — the starting weighted average of the points. -/
def weightedAvg (points weights : List ℚ) : ℚ :=
  (List.zipWith (fun w p => w * p) weights points).sum / weights.sum

/-- Modelled from the spec: one Weiszfeld reweighting iteration of the
missing `Geomed` solver (spec §4.1).  "If a point coincides exactly with
the current estimate (zero distance), it is handled by a numerically
stable degenerate branch (treat as the answer ...)". -/
def weiszfeldStep (points weights : List ℚ) (est : ℚ) : ℚ :=
  if est ∈ points then est
  else
    (List.zipWith (fun w p => w / euclDist p est * p) weights points).sum /
      (List.zipWith (fun w p => w / euclDist p est) weights points).sum

/-- Modelled from the spec: the missing `Geomed` solver on a nonempty
point list — a bounded number (three) of Weiszfeld iterations from the
weighted average ("stopping after a bounded number of iterations",
§4.1). -/
def gmSolve (points weights : List ℚ) : ℚ :=
  weiszfeldStep points weights
    (weiszfeldStep points weights
      (weiszfeldStep points weights (weightedAvg points weights)))

/-- Modelled from the spec: `self.gm_agg(updates, alpha)` — the missing
`Geomed` aggregator called by `Autogm.__call__`; spec §4.1 precondition
`N ≥ 1`, so an empty point list is rejected (`none`). -/
def gmAgg (points weights : List ℚ) : Option ℚ :=
  if points.isEmpty then none else some (gmSolve points weights)

/-- `Autogm.geometric_median_objective` (autogm.py lines 22-23):
`sum(alpha_i * dist(median, p_i))`. -/
def gmObjective (median : ℚ) (points alphas : List ℚ) : ℚ :=
  (List.zipWith (fun a p => a * euclDist median p) alphas points).sum

/-- `lamb = 1 * len(updates)` (autogm.py line 30). -/
def autogmLamb (updates : List ℚ) : ℚ := 1 * (updates.length : ℚ)

/-- `alpha = np.ones(len(updates)) / len(updates)` (autogm.py line 31). -/
def autogmAlpha0 (updates : List ℚ) : List ℚ :=
  updates.map fun _ => 1 / (updates.length : ℚ)

/-- `global_obj = obj_val + lamb * np.linalg.norm(alpha) ** 2 / 2`
(autogm.py lines 33-34 and 52-53), as a function of the current
(median, alpha) state. -/
def globalObj (lamb : ℚ) (updates : List ℚ) (s : ℚ × List ℚ) : ℚ :=
  gmObjective s.1 updates s.2 + lamb * (s.2.map fun a => a ^ 2).sum / 2

/-- Python tuple comparison on the pairs produced by `enumerate(distance)`:
lexicographic, index first.  This is the comparison actually used at
autogm.py line 41, whose `key=lambda x: x` is the identity on the pair. -/
def pairLe (a b : ℕ × ℚ) : Bool :=
  decide (a.1 < b.1) || (decide (a.1 = b.1) && decide (a.2 ≤ b.2))

/-- `idxs = [x for x, _ in sorted(enumerate(distance), key=lambda x: x)]`
(autogm.py line 41): sort the (index, distance) pairs by the pair itself
(index-first lexicographic order) and keep the indices. -/
def autogmIdxs (d : List ℚ) : List ℕ :=
  (isortBy pairLe d.enum).map Prod.fst

/-- From the spec's words (§4.2 step 5b, for comparison with
`autogmIdxs`): "Sort participant indices ascending by distance_i; ties
broken by original index for determinism" — lexicographic on
(distance, index). -/
def distLe (a b : ℕ × ℚ) : Bool :=
  decide (a.2 < b.2) || (decide (a.2 = b.2) && decide (a.1 ≤ b.1))

/-- From the spec's words: participant indices sorted ascending by
distance, ties broken by original index. -/
def specDistSortedIdxs (d : List ℚ) : List ℕ :=
  (isortBy distLe d.enum).map Prod.fst

/-- The threshold-search loop body (autogm.py lines 43-48), scanning the
remaining index list with position counter `p`, running distance sum
`acc` over the already-scanned positions, and current `eta_optimal`:
`eta = (sum(distance over idxs[:p+1]) + lamb) / (p+1)`; if
`eta - distance[idxs[p]] < 0` break with the current `eta_optimal`,
otherwise accept `eta`. -/
def etaScanGo (d : List ℚ) (lamb : ℚ) : List ℕ → ℕ → ℚ → ℚ → ℚ
  | [], _, _, etaOpt => etaOpt
  | i :: rest, p, acc, etaOpt =>
    if (acc + d.getD i 0 + lamb) / ((p : ℚ) + 1) - d.getD i 0 < 0 then etaOpt
    else etaScanGo d lamb rest (p + 1) (acc + d.getD i 0)
      ((acc + d.getD i 0 + lamb) / ((p : ℚ) + 1))

/-- The full threshold search (autogm.py lines 42-48), starting from
`eta_optimal = 10000000000000000.0`. -/
def etaScan (d : List ℚ) (lamb : ℚ) (idxs : List ℕ) : ℚ :=
  etaScanGo d lamb idxs 0 0 10000000000000000

/-- `alpha = np.array([max(eta_optimal - d, 0) / lamb for d in distance])`
(autogm.py line 49). -/
def alphaUpdate (d : List ℚ) (etaOpt lamb : ℚ) : List ℚ :=
  d.map fun di => max (etaOpt - di) 0 / lamb

/-- One outer iteration of `Autogm.__call__` (autogm.py lines 38-53) on
the state `s = (median, alpha)`: recompute the distances to the current
median, run the threshold search, update the weights, and re-solve the
geometric median. -/
def autogmStep (updates : List ℚ) (lamb : ℚ) (s : ℚ × List ℚ) : ℚ × List ℚ :=
  (gmSolve updates
      (alphaUpdate (updates.map fun u => euclDist u s.1)
        (etaScan (updates.map fun u => euclDist u s.1) lamb
          (autogmIdxs (updates.map fun u => euclDist u s.1)))
        lamb),
    alphaUpdate (updates.map fun u => euclDist u s.1)
      (etaScan (updates.map fun u => euclDist u s.1) lamb
        (autogmIdxs (updates.map fun u => euclDist u s.1)))
      lamb)

/-- The outer loop `for i in range(maxiter)` of `Autogm.__call__`
(autogm.py lines 36-55), carrying the previous `global_obj` and the
current state: run one `autogmStep`, recompute the objective, and break
when `abs(prev_global_obj - global_obj) < ftol * global_obj`. -/
def autogmLoop (updates : List ℚ) (lamb ftol : ℚ) : ℕ → ℚ → ℚ × List ℚ → ℚ × List ℚ
  | 0, _, s => s
  | fuel + 1, obj, s =>
    if |obj - globalObj lamb updates (autogmStep updates lamb s)| <
        ftol * globalObj lamb updates (autogmStep updates lamb s) then
      autogmStep updates lamb s
    else
      autogmLoop updates lamb ftol fuel
        (globalObj lamb updates (autogmStep updates lamb s))
        (autogmStep updates lamb s)

/-- The initial state of the outer loop: `median` from the uniform-weight
geometric median (autogm.py line 32) and the uniform `alpha`. -/
def autogmS0 (updates : List ℚ) : ℚ × List ℚ :=
  (gmSolve updates (autogmAlpha0 updates), autogmAlpha0 updates)

/-- `Autogm.__call__` (autogm.py lines 25-57) as a state transformer: the
first component of the input/output pair is the result, the second the
`self.momentum` slot.  `updates[0]` on an empty update list raises
`IndexError` when `self.momentum is None` (first call); otherwise the
momentum slot is only written, at line 56, never read.  `eps` is accepted
and unused, as in the source.  The returned value and the stored momentum
are the same final median. -/
def autogmCall (momentum : Option ℚ) (updates : List ℚ) (maxiter : ℕ)
    (eps ftol : ℚ) : Option (ℚ × ℚ) :=
  match momentum, updates with
  | none, [] => none
  | _, _ =>
    match gmAgg updates (autogmAlpha0 updates) with
    | none => none
    | some m0 =>
      some
        ((autogmLoop updates (autogmLamb updates) ftol maxiter
            (globalObj (autogmLamb updates) updates (m0, autogmAlpha0 updates))
            (m0, autogmAlpha0 updates)).1,
          (autogmLoop updates (autogmLamb updates) ftol maxiter
            (globalObj (autogmLamb updates) updates (m0, autogmAlpha0 updates))
            (m0, autogmAlpha0 updates)).1)

/-- The number of `autogmStep`s the outer loop performs before returning:
counts iterations until the break condition
`abs(prev_global_obj - global_obj) < ftol * global_obj` fires, capped by
the fuel (`maxiter`). -/
def stopSteps (updates : List ℚ) (lamb ftol : ℚ) : ℕ → ℚ × List ℚ → ℕ
  | 0, _ => 0
  | fuel + 1, s =>
    if |globalObj lamb updates s - globalObj lamb updates (autogmStep updates lamb s)| <
        ftol * globalObj lamb updates (autogmStep updates lamb s) then 1
    else stopSteps updates lamb ftol fuel (autogmStep updates lamb s) + 1

/-- The break condition of the outer loop, as a predicate on the iteration
index `k` from the start state `s`: the objective change from iterate `k`
to iterate `k+1` is below `ftol` times the new objective. -/
def convergedAt (updates : List ℚ) (lamb ftol : ℚ) (s : ℚ × List ℚ) (k : ℕ) : Prop :=
  |globalObj lamb updates ((autogmStep updates lamb)^[k] s) -
      globalObj lamb updates ((autogmStep updates lamb)^[k + 1] s)| <
    ftol * globalObj lamb updates ((autogmStep updates lamb)^[k + 1] s)

end Autogm

/-- A freshly created parameter: no gradient computed yet, empty
per-parameter state dictionary. -/
def param0 : Param := ⟨none, none, none⟩

/-- The effect of `loss.backward()` under a constant scalar per-parameter
gradient `g`: every parameter's live gradient tensor is (re)written to
`[g]` before the save. -/
def freshGrad (g : ℚ) (ps : List Param) : List Param :=
  ps.map fun p => { p with grad := some [g] }

/-- One local step of the momentum client under the constant per-step
gradient `g`: compute the gradient, then `ClientWithMomentum._save_grad`. -/
def momRound (m g : ℚ) (ps : List Param) : List Param :=
  ClientImpl.momentum_save_grad m (freshGrad g ps)

/-- The momentum buffer of a single-parameter client state. -/
def bufferOf (ps : List Param) : Option (List ℚ) :=
  match ps with
  | [p] => p.momentum_buffer
  | _ => none

/-! ## Helper lemmas -/

/-- A map that leaves a list unchanged fixes every element. -/
theorem list_map_fix (f : ℚ → ℚ) : ∀ l : List ℚ, l.map f = l → ∀ x ∈ l, f x = x
  | [], _, x, hx => absurd hx (List.not_mem_nil x)
  | a :: l, h, x, hx => by
    injection h with h1 h2
    rcases List.mem_cons.mp hx with rfl | hx'
    · exact h1
    · exact list_map_fix f l h2 x hx'

/-- Shifting the convergence predicate by one outer iteration. -/
theorem autogmConvergedAt_succ (updates : List ℚ) (lamb ftol : ℚ) (s : ℚ × List ℚ) (k : ℕ) :
    Autogm.convergedAt updates lamb ftol s (k + 1) ↔
      Autogm.convergedAt updates lamb ftol (Autogm.autogmStep updates lamb s) k := by
  unfold Autogm.convergedAt
  rw [Function.iterate_succ_apply, Function.iterate_succ_apply]

/-- Unfolding equation for `autogmLoop` at positive fuel. -/
theorem autogmLoop_succ (updates : List ℚ) (lamb ftol : ℚ) (n : ℕ) (obj : ℚ) (s : ℚ × List ℚ) :
    Autogm.autogmLoop updates lamb ftol (n + 1) obj s =
      if |obj - Autogm.globalObj lamb updates (Autogm.autogmStep updates lamb s)| <
          ftol * Autogm.globalObj lamb updates (Autogm.autogmStep updates lamb s) then
        Autogm.autogmStep updates lamb s
      else
        Autogm.autogmLoop updates lamb ftol n
          (Autogm.globalObj lamb updates (Autogm.autogmStep updates lamb s))
          (Autogm.autogmStep updates lamb s) := rfl

/-- Unfolding equation for `stopSteps` at positive fuel. -/
theorem autogmStopSteps_succ (updates : List ℚ) (lamb ftol : ℚ) (n : ℕ) (s : ℚ × List ℚ) :
    Autogm.stopSteps updates lamb ftol (n + 1) s =
      if |Autogm.globalObj lamb updates s -
          Autogm.globalObj lamb updates (Autogm.autogmStep updates lamb s)| <
          ftol * Autogm.globalObj lamb updates (Autogm.autogmStep updates lamb s) then 1
      else Autogm.stopSteps updates lamb ftol n (Autogm.autogmStep updates lamb s) + 1 := rfl

/-- The break-based outer loop of `Autogm.__call__` computes the
`stopSteps`-th iterate of the outer-iteration map. -/
theorem autogmLoop_eq_iterate (updates : List ℚ) (lamb ftol : ℚ) :
    ∀ (fuel : ℕ) (s : ℚ × List ℚ),
      Autogm.autogmLoop updates lamb ftol fuel (Autogm.globalObj lamb updates s) s =
        (Autogm.autogmStep updates lamb)^[Autogm.stopSteps updates lamb ftol fuel s] s := by
  intro fuel
  induction fuel with
  | zero => intro s; rfl
  | succ n ih =>
    intro s
    rw [autogmLoop_succ, autogmStopSteps_succ]
    by_cases h :
        |Autogm.globalObj lamb updates s -
            Autogm.globalObj lamb updates (Autogm.autogmStep updates lamb s)| <
          ftol * Autogm.globalObj lamb updates (Autogm.autogmStep updates lamb s)
    · rw [if_pos h, if_pos h, Function.iterate_one]
    · rw [if_neg h, if_neg h, ih (Autogm.autogmStep updates lamb s), Function.iterate_succ_apply]

/-- The loop performs at most `maxiter` outer iterations. -/
theorem autogmStopSteps_le (updates : List ℚ) (lamb ftol : ℚ) :
    ∀ (fuel : ℕ) (s : ℚ × List ℚ), Autogm.stopSteps updates lamb ftol fuel s ≤ fuel := by
  intro fuel
  induction fuel with
  | zero => intro s; exact Nat.le_refl 0
  | succ n ih =>
    intro s
    rw [autogmStopSteps_succ]
    by_cases h :
        |Autogm.globalObj lamb updates s -
            Autogm.globalObj lamb updates (Autogm.autogmStep updates lamb s)| <
          ftol * Autogm.globalObj lamb updates (Autogm.autogmStep updates lamb s)
    · rw [if_pos h]
      exact Nat.succ_le_succ (Nat.zero_le n)
    · rw [if_neg h]
      exact Nat.succ_le_succ (ih _)

/-- No earlier iteration than the one the loop stops at satisfies the
break condition. -/
theorem autogmStopSteps_min (updates : List ℚ) (lamb ftol : ℚ) :
    ∀ (fuel : ℕ) (s : ℚ × List ℚ) (k : ℕ),
      k + 1 < Autogm.stopSteps updates lamb ftol fuel s →
        ¬ Autogm.convergedAt updates lamb ftol s k := by
  intro fuel
  induction fuel with
  | zero =>
    intro s k hk
    rw [show Autogm.stopSteps updates lamb ftol 0 s = 0 from rfl] at hk
    exact absurd hk (by omega)
  | succ n ih =>
    intro s k hk
    rw [autogmStopSteps_succ] at hk
    by_cases h :
        |Autogm.globalObj lamb updates s -
            Autogm.globalObj lamb updates (Autogm.autogmStep updates lamb s)| <
          ftol * Autogm.globalObj lamb updates (Autogm.autogmStep updates lamb s)
    · rw [if_pos h] at hk
      omega
    · rw [if_neg h] at hk
      cases k with
      | zero =>
        intro hc
        exact h hc
      | succ j =>
        rw [autogmConvergedAt_succ]
        exact ih (Autogm.autogmStep updates lamb s) j (by omega)

/-- If the loop stops strictly before exhausting `maxiter`, the break
condition holds at the final iteration. -/
theorem autogmStopSteps_conv (updates : List ℚ) (lamb ftol : ℚ) :
    ∀ (fuel : ℕ) (s : ℚ × List ℚ),
      Autogm.stopSteps updates lamb ftol fuel s < fuel →
        0 < Autogm.stopSteps updates lamb ftol fuel s ∧
          Autogm.convergedAt updates lamb ftol s
            (Autogm.stopSteps updates lamb ftol fuel s - 1) := by
  intro fuel
  induction fuel with
  | zero =>
    intro s h
    exact absurd h (Nat.lt_irrefl 0)
  | succ n ih =>
    intro s h
    rw [autogmStopSteps_succ] at h ⊢
    by_cases hc :
        |Autogm.globalObj lamb updates s -
            Autogm.globalObj lamb updates (Autogm.autogmStep updates lamb s)| <
          ftol * Autogm.globalObj lamb updates (Autogm.autogmStep updates lamb s)
    · rw [if_pos hc]
      refine ⟨Nat.one_pos, ?_⟩
      exact hc
    · rw [if_neg hc] at h ⊢
      have h' : Autogm.stopSteps updates lamb ftol n (Autogm.autogmStep updates lamb s) < n := by
        omega
      obtain ⟨hpos, hcv⟩ := ih (Autogm.autogmStep updates lamb s) h'
      refine ⟨by omega, ?_⟩
      have hk :
          Autogm.stopSteps updates lamb ftol n (Autogm.autogmStep updates lamb s) + 1 - 1 =
            (Autogm.stopSteps updates lamb ftol n (Autogm.autogmStep updates lamb s) - 1) + 1 := by
        omega
      rw [hk, autogmConvergedAt_succ]
      exact hcv

/-- One momentum round on a single parameter whose buffer already holds
`[g]`: the buffer is blended and the live gradient is scaled in place. -/
theorem momRound_buffer (m g : ℚ) (gr sg : Option (List ℚ)) :
    momRound m g [⟨gr, sg, some [g]⟩] =
      [⟨some [g * (1 - m)], sg, some [g * m + g * (1 - m)]⟩] := rfl

/-- After `n + 1` constant-gradient rounds the single-parameter momentum
buffer holds exactly `[g]`. -/
theorem momRound_iterate (m g : ℚ) :
    ∀ n : ℕ, ∃ gr, (momRound m g)^[n + 1] [param0] = [⟨gr, none, some [g]⟩]
  | 0 => ⟨some [g], rfl⟩
  | n + 1 => by
    obtain ⟨gr, h⟩ := momRound_iterate m g n
    rw [Function.iterate_succ_apply', h, momRound_buffer]
    exact ⟨some [g * (1 - m)], by rw [show g * m + g * (1 - m) = g from by ring]⟩

/-- The two textually identical `set_gradient` implementations agree. -/
theorem set_gradient_eq : ∀ (ps : List Param) (g : List ℚ),
    ClientImpl.set_gradient g ps = ActorImpl.set_gradient g ps := by
  intro ps
  induction ps with
  | nil => intro g; rfl
  | cons p rest ih =>
    intro g
    simp only [ClientImpl.set_gradient, ActorImpl.set_gradient, ih]

/-! ## Claim theorems -/

/-- C1: at the concrete distance vector `[5, 1]` (two participants whose
distances to the current median are 5 and 1, `lamb = N = 2`), the scan
order computed by autogm.py line 41 is the original index order `[0, 1]`,
not the distance-ascending order `[1, 0]` of the claim, and the resulting
threshold differs: the code's scan accepts `eta* = 4` while a
distance-sorted scan stops at `eta* = 3`.  The `key=lambda x: x` of the
source sorts the `(index, distance)` pairs themselves, index first. -/
theorem autogm_scan_order_bug :
    Autogm.autogmIdxs [5, 1] = [0, 1] ∧
    Autogm.specDistSortedIdxs [5, 1] = [1, 0] ∧
    Autogm.autogmIdxs [5, 1] ≠ Autogm.specDistSortedIdxs [5, 1] ∧
    Autogm.etaScan [5, 1] 2 (Autogm.autogmIdxs [5, 1]) = 4 ∧
    Autogm.etaScan [5, 1] 2 (Autogm.specDistSortedIdxs [5, 1]) = 3 := by
  have h1 : Autogm.autogmIdxs [5, 1] = [0, 1] := by decide
  have h2 : Autogm.specDistSortedIdxs [5, 1] = [1, 0] := by decide
  refine ⟨h1, h2, by decide, ?_, ?_⟩
  · rw [h1]
    norm_num [Autogm.etaScan, Autogm.etaScanGo]
  · rw [h2]
    norm_num [Autogm.etaScan, Autogm.etaScanGo]

/-- C2 counterexample: a stored update holding `+Inf` is mapped by
`get_update` to the largest finite float value, not to `0`. -/
theorem get_update_inf_cex :
    ClientImpl.get_update [FVal.pinf] = [FVal.fin floatMax] ∧
    ClientImpl.get_update [FVal.pinf] ≠ [FVal.fin 0] := by
  refine ⟨rfl, ?_⟩
  intro h
  simp only [ClientImpl.get_update, List.map_cons, List.map_nil, nanToNum,
    List.cons.injEq, and_true, FVal.fin.injEq] at h
  norm_num [floatMax] at h

/-- C2 (amended): `get_update` preserves the length (never returns fewer
than D elements, never raises), keeps every finite entry unchanged, and
replaces `NaN` by exactly `0`, `+Inf` by the largest finite float value
and `-Inf` by the most negative finite float value. -/
theorem get_update_sanitizes (saved : List FVal) :
    (ClientImpl.get_update saved).length = saved.length ∧
    ∀ i, i < saved.length →
      (∀ q, saved.get? i = some (FVal.fin q) →
          (ClientImpl.get_update saved).get? i = some (FVal.fin q)) ∧
      (saved.get? i = some FVal.nan →
          (ClientImpl.get_update saved).get? i = some (FVal.fin 0)) ∧
      (saved.get? i = some FVal.pinf →
          (ClientImpl.get_update saved).get? i = some (FVal.fin floatMax)) ∧
      (saved.get? i = some FVal.ninf →
          (ClientImpl.get_update saved).get? i = some (FVal.fin (-floatMax))) := by
  refine ⟨by simp [ClientImpl.get_update], ?_⟩
  intro i _hi
  refine ⟨?_, ?_, ?_, ?_⟩
  · intro q hq
    unfold ClientImpl.get_update
    rw [List.get?_map, hq]
    rfl
  · intro hq
    unfold ClientImpl.get_update
    rw [List.get?_map, hq]
    rfl
  · intro hq
    unfold ClientImpl.get_update
    rw [List.get?_map, hq]
    rfl
  · intro hq
    unfold ClientImpl.get_update
    rw [List.get?_map, hq]
    rfl

/-- C2 witness: a concrete `NaN` entry is replaced by exactly `0`. -/
theorem get_update_sanitizes_w :
    (ClientImpl.get_update [FVal.fin 5, FVal.nan]).get? 1 = some (FVal.fin 0) :=
  ((get_update_sanitizes [FVal.fin 5, FVal.nan]).2 1 (by decide)).2.1 (by decide)

/-- C3: aggregation is not permutation invariant.  For the permuted pair
of update lists `[0, 2, 40]` and `[40, 2, 0]` (maxiter 1, the default
`ftol`), the aggregates differ: because line 41 scans participants in
original index order instead of distance-ascending order, the threshold
`eta*`, hence the weight vector and the re-solved median, depend on the
input order.  All three first-iteration distances are pairwise distinct,
so the tie-break proviso of the claim does not apply. -/
theorem autogm_perm_dependent :
    ([40, 2, 0] : List ℚ).Perm [0, 2, 40] ∧
    (Autogm.autogmCall none [0, 2, 40] 1 0 (1 / 1000000)).map Prod.fst ≠
      (Autogm.autogmCall none [40, 2, 0] 1 0 (1 / 1000000)).map Prod.fst := by
  have e1 : Autogm.autogmCall none [0, 2, 40] 1 0 (1 / 1000000) =
      some (625 / 313, 625 / 313) := by
    norm_num [Autogm.autogmCall, Autogm.gmAgg, Autogm.autogmAlpha0, Autogm.autogmLamb,
      Autogm.autogmLoop, Autogm.autogmStep, Autogm.gmSolve, Autogm.weiszfeldStep,
      Autogm.weightedAvg, Autogm.euclDist, Autogm.gmObjective, Autogm.globalObj,
      Autogm.etaScan, Autogm.etaScanGo, Autogm.alphaUpdate, Autogm.autogmIdxs,
      Autogm.pairLe, isortBy, insertLe, List.enum, List.enumFrom, List.getD,
      abs_of_nonneg, abs_of_nonpos]
  have e2 : Autogm.autogmCall none [40, 2, 0] 1 0 (1 / 1000000) =
      some ((211068625226972818499304712611576948140868289822449322649521637540641 : ℚ) /
          160756154879964583727575155507561377174599593481450042980244558739521,
        (211068625226972818499304712611576948140868289822449322649521637540641 : ℚ) /
          160756154879964583727575155507561377174599593481450042980244558739521) := by
    norm_num [Autogm.autogmCall, Autogm.gmAgg, Autogm.autogmAlpha0, Autogm.autogmLamb,
      Autogm.autogmLoop, Autogm.autogmStep, Autogm.gmSolve, Autogm.weiszfeldStep,
      Autogm.weightedAvg, Autogm.euclDist, Autogm.gmObjective, Autogm.globalObj,
      Autogm.etaScan, Autogm.etaScanGo, Autogm.alphaUpdate, Autogm.autogmIdxs,
      Autogm.pairLe, isortBy, insertLe, List.enum, List.enumFrom, List.getD,
      abs_of_nonneg, abs_of_nonpos]
  refine ⟨by decide, ?_⟩
  rw [e1, e2]
  intro h
  simp only [Option.map_some', Option.some.injEq] at h
  norm_num at h

/-- C4: with a frozen second parameter (no gradient slot), the flatten
and scatter paths do not skip it.  After `_save_grad` (which does skip
it), `get_gradient` fails reading the absent `saved_grad` key
(`KeyError`), and `set_gradient` fails dereferencing `p.grad` on the
frozen parameter (`AttributeError`) — so `setGradient(getGradient())`
cannot restore the state, contradicting the claim. -/
theorem grad_roundtrip_frozen_fails :
    ClientImpl.save_grad [⟨some [2], none, none⟩, ⟨none, none, none⟩] =
      [⟨some [2], some [2], none⟩, ⟨none, none, none⟩] ∧
    ClientImpl.get_gradient [⟨some [2], some [2], none⟩, ⟨none, none, none⟩] = none ∧
    ClientImpl.set_gradient [2] [⟨some [2], some [2], none⟩, ⟨none, none, none⟩] = none :=
  ⟨rfl, rfl, rfl⟩

/-- C5 counterexample: under the constant gradient `g = 1` with momentum
factor `m = 1/2`, after `k = 1` step the buffer holds exactly `[1]` (the
first observed gradient), not `g * (1 - (1 - m)^k) = 1/2` as the claim's
closed form predicts. -/
theorem momentum_formula_cex :
    bufferOf ((momRound (1 / 2) 1)^[1] [param0]) = some [1] ∧
    bufferOf ((momRound (1 / 2) 1)^[1] [param0]) ≠
      some [1 * (1 - (1 - 1 / 2 : ℚ) ^ 1)] := by
  refine ⟨rfl, ?_⟩
  intro h
  rw [show bufferOf ((momRound (1 / 2) 1)^[1] [param0]) = some [(1 : ℚ)] from rfl] at h
  simp only [Option.some.injEq, List.cons.injEq, and_true] at h
  norm_num at h

/-- C5 (amended): the buffer is initialized to the first observed
gradient, every later save blends `buffer = buffer*m + grad*(1-m)`, and
under the same constant gradient `g` at every step the buffer after
`k ≥ 1` steps equals `g` exactly (`g` is a fixed point of the blend), not
`g * (1 - (1-m)^k)`. -/
theorem momentum_constant_fixed (m g b : ℚ) (k : ℕ) (hk : 1 ≤ k) :
    bufferOf (ClientImpl.momentum_save_grad m (freshGrad g [param0])) = some [g] ∧
    bufferOf (ClientImpl.momentum_save_grad m [⟨some [g], none, some [b]⟩]) =
      some [b * m + g * (1 - m)] ∧
    bufferOf ((momRound m g)^[k] [param0]) = some [g] := by
  refine ⟨rfl, rfl, ?_⟩
  obtain ⟨n, rfl⟩ : ∃ n, k = n + 1 := ⟨k - 1, by omega⟩
  obtain ⟨gr, h⟩ := momRound_iterate m g n
  rw [h]
  rfl

/-- C5 witness: two constant-gradient steps with `m = 1/2`, `g = 1` leave
the buffer at exactly `[1]`. -/
theorem momentum_constant_fixed_w :
    bufferOf ((momRound (1 / 2) 1)^[2] [param0]) = some [1] :=
  (momentum_constant_fixed (1 / 2) 1 3 2 (by decide)).2.2

/-- C6: on a nonempty update list, `Autogm.__call__` returns (it never
raises) the median component of the `stopSteps`-th outer iterate of the
start state, also storing it as the momentum; the loop performs at most
`maxiter` iterations; no iteration before the stopping one satisfies the
break condition `|previous objective - new objective| < ftol * new
objective` (the objective being `sum alpha_i * dist(median, u_i) +
lamb * ||alpha||^2 / 2` with `lamb = N`); and if the loop stops before
exhausting `maxiter`, the final iteration does satisfy it. -/
theorem autogm_objective_stop (mom : Option ℚ) (updates : List ℚ) (maxiter : ℕ)
    (eps ftol : ℚ) (h : updates ≠ []) :
    Autogm.autogmCall mom updates maxiter eps ftol =
      some
        (((Autogm.autogmStep updates (Autogm.autogmLamb updates))^[
            Autogm.stopSteps updates (Autogm.autogmLamb updates) ftol maxiter
              (Autogm.autogmS0 updates)] (Autogm.autogmS0 updates)).1,
          ((Autogm.autogmStep updates (Autogm.autogmLamb updates))^[
            Autogm.stopSteps updates (Autogm.autogmLamb updates) ftol maxiter
              (Autogm.autogmS0 updates)] (Autogm.autogmS0 updates)).1) ∧
    Autogm.stopSteps updates (Autogm.autogmLamb updates) ftol maxiter
        (Autogm.autogmS0 updates) ≤ maxiter ∧
    (∀ k, k + 1 < Autogm.stopSteps updates (Autogm.autogmLamb updates) ftol maxiter
        (Autogm.autogmS0 updates) →
      ¬ Autogm.convergedAt updates (Autogm.autogmLamb updates) ftol
          (Autogm.autogmS0 updates) k) ∧
    (Autogm.stopSteps updates (Autogm.autogmLamb updates) ftol maxiter
        (Autogm.autogmS0 updates) < maxiter →
      0 < Autogm.stopSteps updates (Autogm.autogmLamb updates) ftol maxiter
          (Autogm.autogmS0 updates) ∧
      Autogm.convergedAt updates (Autogm.autogmLamb updates) ftol (Autogm.autogmS0 updates)
        (Autogm.stopSteps updates (Autogm.autogmLamb updates) ftol maxiter
          (Autogm.autogmS0 updates) - 1)) := by
  refine ⟨?_,
    autogmStopSteps_le updates (Autogm.autogmLamb updates) ftol maxiter
      (Autogm.autogmS0 updates),
    fun k hk => autogmStopSteps_min updates (Autogm.autogmLamb updates) ftol maxiter
      (Autogm.autogmS0 updates) k hk,
    fun hlt => autogmStopSteps_conv updates (Autogm.autogmLamb updates) ftol maxiter
      (Autogm.autogmS0 updates) hlt⟩
  cases updates with
  | nil => exact absurd rfl h
  | cons u us =>
    have key := autogmLoop_eq_iterate (u :: us) (Autogm.autogmLamb (u :: us)) ftol maxiter
      (Autogm.autogmS0 (u :: us))
    cases mom with
    | none =>
      show some
          ((Autogm.autogmLoop (u :: us) (Autogm.autogmLamb (u :: us)) ftol maxiter
              (Autogm.globalObj (Autogm.autogmLamb (u :: us)) (u :: us)
                (Autogm.autogmS0 (u :: us)))
              (Autogm.autogmS0 (u :: us))).1,
            (Autogm.autogmLoop (u :: us) (Autogm.autogmLamb (u :: us)) ftol maxiter
              (Autogm.globalObj (Autogm.autogmLamb (u :: us)) (u :: us)
                (Autogm.autogmS0 (u :: us)))
              (Autogm.autogmS0 (u :: us))).1) = _
      rw [key]
    | some a =>
      show some
          ((Autogm.autogmLoop (u :: us) (Autogm.autogmLamb (u :: us)) ftol maxiter
              (Autogm.globalObj (Autogm.autogmLamb (u :: us)) (u :: us)
                (Autogm.autogmS0 (u :: us)))
              (Autogm.autogmS0 (u :: us))).1,
            (Autogm.autogmLoop (u :: us) (Autogm.autogmLamb (u :: us)) ftol maxiter
              (Autogm.globalObj (Autogm.autogmLamb (u :: us)) (u :: us)
                (Autogm.autogmS0 (u :: us)))
              (Autogm.autogmS0 (u :: us))).1) = _
      rw [key]

/-- C6 witness: a concrete nonempty call. -/
theorem autogm_objective_stop_w :
    Autogm.autogmCall none [0, 4] 2 0 (1 / 1000000) =
      some
        (((Autogm.autogmStep [0, 4] (Autogm.autogmLamb [0, 4]))^[
            Autogm.stopSteps [0, 4] (Autogm.autogmLamb [0, 4]) (1 / 1000000) 2
              (Autogm.autogmS0 [0, 4])] (Autogm.autogmS0 [0, 4])).1,
          ((Autogm.autogmStep [0, 4] (Autogm.autogmLamb [0, 4]))^[
            Autogm.stopSteps [0, 4] (Autogm.autogmLamb [0, 4]) (1 / 1000000) 2
              (Autogm.autogmS0 [0, 4])] (Autogm.autogmS0 [0, 4])).1) :=
  (autogm_objective_stop none [0, 4] 2 0 (1 / 1000000) (by decide)).1

/-- C7: aggregation over zero participants never returns an aggregate:
with no stored momentum the first call fails at `updates[0]`
(`IndexError`), and with stored momentum the geometric-median solver
rejects an empty point list (spec §4.1 precondition `N ≥ 1`). -/
theorem autogm_empty_rejected (mom : Option ℚ) (maxiter : ℕ) (eps ftol : ℚ) :
    Autogm.autogmCall mom [] maxiter eps ftol = none := by
  cases mom <;> rfl

/-- C8: once the momentum buffer exists, `ClientWithMomentum._save_grad`
mutates the live gradient in place: `p.grad.mul_(1 - m)` scales every
entry by `1 - m`, so for `m ≠ 0` and a nonzero gradient the stored
`p.grad` after the save is no longer the gradient computed that step. -/
theorem momentum_save_mutates_grad (m : ℚ) (ps : List Param) (i : ℕ) (p : Param)
    (g b : List ℚ) (hp : ps.get? i = some p) (hg : p.grad = some g)
    (hb : p.momentum_buffer = some b) :
    ((ClientImpl.momentum_save_grad m ps).get? i).map Param.grad =
      some (some (g.map fun gi => gi * (1 - m))) ∧
    (m ≠ 0 → (∃ x ∈ g, x ≠ 0) →
      ((ClientImpl.momentum_save_grad m ps).get? i).map Param.grad ≠ some (some g)) := by
  obtain ⟨pg, psg, pb⟩ := p
  change pg = some g at hg
  change pb = some b at hb
  subst hg
  subst hb
  have h1 : ((ClientImpl.momentum_save_grad m ps).get? i).map Param.grad =
      some (some (g.map fun gi => gi * (1 - m))) := by
    unfold ClientImpl.momentum_save_grad
    rw [List.get?_map, hp]
    rfl
  refine ⟨h1, ?_⟩
  intro hm hex heq
  obtain ⟨x, hx, hxne⟩ := hex
  rw [h1] at heq
  have h2 : g.map (fun gi => gi * (1 - m)) = g := Option.some.inj (Option.some.inj heq)
  have h3 := list_map_fix (fun gi => gi * (1 - m)) g h2 x hx
  have h4 : x * m = 0 := by linear_combination -h3
  rcases mul_eq_zero.mp h4 with h5 | h5
  · exact hxne h5
  · exact hm h5

/-- C8 witness: a concrete save with an existing buffer. -/
theorem momentum_save_mutates_grad_w :
    ((ClientImpl.momentum_save_grad (1 / 2) [⟨some [1], none, some [2]⟩]).get? 0).map
        Param.grad =
      some (some ([1].map fun gi => gi * (1 - (1 / 2 : ℚ)))) :=
  (momentum_save_mutates_grad (1 / 2) [⟨some [1], none, some [2]⟩] 0
    ⟨some [1], none, some [2]⟩ [1] [2] rfl rfl rfl).1

/-- C9: the result of `Autogm.__call__` is independent of the momentum
buffer held before the call: the buffer is only written (zero-initialized
when absent, overwritten with the final median at the end), never read
into the computation. -/
theorem autogm_momentum_unread (m1 m2 : Option ℚ) (updates : List ℚ) (maxiter : ℕ)
    (eps ftol : ℚ) :
    Autogm.autogmCall m1 updates maxiter eps ftol =
      Autogm.autogmCall m2 updates maxiter eps ftol := by
  cases updates <;> cases m1 <;> cases m2 <;> rfl

/-- C10: the gradient/update interface of `client.py` and `actor.py` is
behaviorally equivalent on identical states: the plain and momentum
`_save_grad`, the plain `get_gradient`, the momentum `_get_saved_grad`,
`set_gradient` and `get_update` all agree pointwise. -/
theorem client_actor_equiv :
    (∀ ps, ClientImpl.save_grad ps = ActorImpl.save_grad ps) ∧
    (∀ m ps, ClientImpl.momentum_save_grad m ps = ActorImpl.momentum_save_grad m ps) ∧
    (∀ ps, ClientImpl.get_gradient ps = ActorImpl.get_gradient ps) ∧
    (∀ ps, ClientImpl.momentum_get_saved_grad ps = ActorImpl.momentum_get_saved_grad ps) ∧
    (∀ g ps, ClientImpl.set_gradient g ps = ActorImpl.set_gradient g ps) ∧
    (∀ u, ClientImpl.get_update u = ActorImpl.get_update u) :=
  ⟨fun _ => rfl, fun _ _ => rfl, fun _ => rfl, fun _ => rfl,
    fun g ps => set_gradient_eq ps g, fun _ => rfl⟩
